import Mathlib

/-!
Shallow embedding of pycronner (src/src/pycronner/_cronner.py): the matching
engine (SettableJobScheduler.should_run), the predicate-set builders and seal,
interval configuration, stop / stop_until runtime controls, the per-job run
state (JobStatus), the runnable-job due check (RunnableJob.should_run), the
dispatch body (RunnableJob._run_internal) and the polling-loop dispatch
decision.

Modelling conventions:
- Python exceptions are modelled by the Except monad over PyErr; the
  constructors record which Python exception class is raised.
- datetime.datetime is modelled as an absolute timeline value (seconds, an
  unbounded Int) together with the calendar components the matching engine
  reads (second / minute / hour / day / weekday). Python datetime comparison
  agrees with comparison of the absolute value. datetime.min is the constant
  pyDatetimeMin.
- Python sets are modelled as a list of elements plus a frozen flag: set.add
  on a frozenset raises AttributeError, which PySet.add mirrors.
-/

/-- Python exception classes raised by the embedded code. -/
inductive PyErr where
  | runtimeError : String → PyErr
  | valueError : String → PyErr
  | attrError : String → PyErr
  | keyError : PyErr
deriving DecidableEq, Repr

/-- A Python set of small integers: elements plus a frozen flag
(frozenset after seal). -/
structure PySet where
  elems : List Nat
  frozen : Bool
deriving DecidableEq, Repr

/-- The empty, unfrozen set() created by JobSchedule.__init__. -/
def PySet.empty : PySet := ⟨[], false⟩

/-- set.add: on a frozenset Python raises AttributeError (frozenset has no
attribute add); otherwise insert the element. -/
def PySet.add (s : PySet) (v : Nat) : Except PyErr PySet :=
  if s.frozen then .error (.attrError "frozenset object has no attribute add")
  else .ok { s with elems := if v ∈ s.elems then s.elems else v :: s.elems }

/-- frozenset(s): same elements, further mutation refused. -/
def PySet.freeze (s : PySet) : PySet := { s with frozen := true }

/-- Python truthiness of a set: non-empty. -/
def PySet.nonempty (s : PySet) : Bool := !s.elems.isEmpty

/-- Python membership test v in s. -/
def PySet.hasMem (s : PySet) (v : Nat) : Bool := s.elems.contains v

/-- datetime.datetime: absolute timeline position in seconds plus the calendar
components the matching engine reads. Comparison of Python datetimes agrees
with comparison of abs. -/
structure DateTime where
  abs : Int
  second : Nat
  minute : Nat
  hour : Nat
  day : Nat
  weekday : Nat
deriving DecidableEq, Repr

/-- datetime.min (year 1, Jan 1, midnight) on the absolute timeline; every
datetime produced by datetime.now() is strictly later. -/
def pyDatetimeMin : Int := -62135596800

/-- JobStatus: running flag + last run timestamp (lines 15-29). -/
structure JobStatus where
  is_running : Bool
  last_run_time : Option DateTime
deriving DecidableEq, Repr

/-- JobStatus.__init__: not running, never run. -/
def JobStatus.init : JobStatus := ⟨false, none⟩

/-- JobStatus.start: set running and stamp last_run_time = now. -/
def JobStatus.start (_st : JobStatus) (now : DateTime) : JobStatus :=
  ⟨true, some now⟩

/-- JobStatus.stop: clear the running flag, keep last_run_time. -/
def JobStatus.stop (st : JobStatus) : JobStatus := { st with is_running := false }

/-- SettableJobScheduler state (lines 32-84): name, the five predicate sets,
daemon flag, sealed flag, interval magnitude and unit, stop flag and
stop-until timestamp. -/
structure SettableJobScheduler where
  name : Option String
  second : PySet
  minute : PySet
  hour : PySet
  weekday : PySet
  day : PySet
  is_daemon : Bool
  is_sealed : Bool
  interval : Int
  interval_unit : String
  is_stop : Bool
  stop_until_time : Int
deriving DecidableEq, Repr

/-- SettableJobScheduler.__init__: everything empty / default,
stop_until_time = datetime.min. -/
def SettableJobScheduler.init : SettableJobScheduler :=
  ⟨none, .empty, .empty, .empty, .empty, .empty, false, false, 0, "", false, pyDatetimeMin⟩

/-- _check_sealed: raise RuntimeError when the schedule is sealed. -/
def SettableJobScheduler.check_sealed (s : SettableJobScheduler) : Except PyErr Unit :=
  if s.is_sealed then .error (.runtimeError "Job Schedule is sealed") else .ok ()

/-- set_name: guarded by _check_sealed. -/
def SettableJobScheduler.set_name (s : SettableJobScheduler) (v : String) :
    Except PyErr SettableJobScheduler :=
  match s.check_sealed with
  | .error e => .error e
  | .ok _ => .ok { s with name := some v }

/-- add_minute: no sealed guard in the source; after seal it fails only
because the set has become a frozenset. -/
def SettableJobScheduler.add_minute (s : SettableJobScheduler) (v : Nat) :
    Except PyErr SettableJobScheduler :=
  (s.minute.add v).map fun m => { s with minute := m }

/-- add_second (same shape as add_minute). -/
def SettableJobScheduler.add_second (s : SettableJobScheduler) (v : Nat) :
    Except PyErr SettableJobScheduler :=
  (s.second.add v).map fun m => { s with second := m }

/-- add_hour (same shape as add_minute). -/
def SettableJobScheduler.add_hour (s : SettableJobScheduler) (v : Nat) :
    Except PyErr SettableJobScheduler :=
  (s.hour.add v).map fun m => { s with hour := m }

/-- add_weekday (same shape as add_minute). -/
def SettableJobScheduler.add_weekday (s : SettableJobScheduler) (v : Nat) :
    Except PyErr SettableJobScheduler :=
  (s.weekday.add v).map fun m => { s with weekday := m }

/-- add_day (same shape as add_minute). -/
def SettableJobScheduler.add_day (s : SettableJobScheduler) (v : Nat) :
    Except PyErr SettableJobScheduler :=
  (s.day.add v).map fun m => { s with day := m }

/-- stop: set the permanent stop flag (no sealed guard). -/
def SettableJobScheduler.stop (s : SettableJobScheduler) : SettableJobScheduler :=
  { s with is_stop := true }

/-- stop_until: set the suppression deadline (no sealed guard). -/
def SettableJobScheduler.stop_until (s : SettableJobScheduler) (t : Int) :
    SettableJobScheduler :=
  { s with stop_until_time := t }

/-- seal: freeze the five predicate sets and set the sealed flag. Nothing in
the body can raise, so calling it again succeeds. -/
def SettableJobScheduler.seal (s : SettableJobScheduler) : SettableJobScheduler :=
  { s with
    second := s.second.freeze
    minute := s.minute.freeze
    hour := s.hour.freeze
    weekday := s.weekday.freeze
    day := s.day.freeze
    is_sealed := true }

/-- is_scheduled: Python truthiness of
second or minute or hour or weekday or day or interval; an integer is truthy
iff non-zero, so a negative interval counts as scheduled. -/
def SettableJobScheduler.is_scheduled (s : SettableJobScheduler) : Bool :=
  s.second.nonempty || s.minute.nonempty || s.hour.nonempty
    || s.weekday.nonempty || s.day.nonempty || (s.interval != 0)

/-- set_interval: guarded by _check_sealed, then refuses a unit different from
an already recorded one; the magnitude is not compared. -/
def SettableJobScheduler.set_interval (s : SettableJobScheduler) (i : Int) (u : String) :
    Except PyErr SettableJobScheduler :=
  match s.check_sealed with
  | .error e => .error e
  | .ok _ =>
    if s.interval_unit ≠ "" ∧ s.interval_unit ≠ u then
      .error (.valueError "interval can only be set once")
    else .ok { s with interval := i, interval_unit := u }

/-- The intervals dict lookup of should_run, in seconds: minute, second, hour
and day are the recorded keys; any other unit is a KeyError. -/
def intervalDelta (i : Int) (u : String) : Option Int :=
  if u = "minute" then some (i * 60)
  else if u = "second" then some i
  else if u = "hour" then some (i * 3600)
  else if u = "day" then some (i * 86400)
  else none

/-- The tail of should_run after the stop gates: the five predicate-set
checks in source order (seconds, minutes, hours, days, weekdays) followed by
the interval check, which runs only when last_run_time is truthy and the
interval is strictly positive. A none result models the KeyError raised for
an unknown interval unit. -/
def SettableJobScheduler.matches_now (s : SettableJobScheduler)
    (last_run_time : Option DateTime) (time_now : DateTime) : Option Bool :=
  if s.second.nonempty && !(s.second.hasMem time_now.second) then some false
  else if s.minute.nonempty && !(s.minute.hasMem time_now.minute) then some false
  else if s.hour.nonempty && !(s.hour.hasMem time_now.hour) then some false
  else if s.day.nonempty && !(s.day.hasMem time_now.day) then some false
  else if s.weekday.nonempty && !(s.weekday.hasMem time_now.weekday) then some false
  else
    match last_run_time with
    | some t =>
      if s.interval > 0 then
        match intervalDelta s.interval s.interval_unit with
        | none => none
        | some d => if t.abs + d > time_now.abs then some false else some true
      else some true
    | none => some true

/-- should_run (lines 135-163): stop flag, then the inclusive stop_until
comparison (stop_until_time >= now), then the predicate and interval checks. -/
def SettableJobScheduler.should_run (s : SettableJobScheduler)
    (last_run_time : Option DateTime) (time_now : DateTime) : Option Bool :=
  if s.is_stop then some false
  else if s.stop_until_time ≥ time_now.abs then some false
  else s.matches_now last_run_time time_now

/-- RunnableJob: handler binding modelled by the fields the due check and the
dispatch body read; the handler itself enters only through run_internal. -/
structure RunnableJob where
  job_schedule : SettableJobScheduler
  job_status : JobStatus
  custom_scheduler : Option (SettableJobScheduler → Bool)
  has_parameter : Bool

/-- RunnableJob.__init__ (lines 247-262): reject an unscheduled spec with
ValueError, derive a name when none was set (derivedName stands for the
result of _create_handle_name), then seal the spec and create a fresh
JobStatus. -/
def RunnableJob.create (scheduler : SettableJobScheduler) (derivedName : String)
    (custom : Option (SettableJobScheduler → Bool)) (hasParam : Bool) :
    Except PyErr RunnableJob :=
  if !scheduler.is_scheduled then
    .error (.valueError "job is not scheduled")
  else
    let named :=
      if scheduler.name.isNone then { scheduler with name := some derivedName }
      else scheduler
    .ok ⟨named.seal, JobStatus.init, custom, hasParam⟩

/-- RunnableJob.should_run (lines 264-274): running jobs are excluded first,
then the intrinsic spec check, then the optional custom scheduler verdict. -/
def RunnableJob.should_run (j : RunnableJob) (time_now : DateTime) : Option Bool :=
  if j.job_status.is_running then some false
  else
    match j.job_schedule.should_run j.job_status.last_run_time time_now with
    | none => none
    | some false => some false
    | some true =>
      match j.custom_scheduler with
      | some f => some (f j.job_schedule)
      | none => some true

/-- RunnableJob._run_internal (lines 281-293): JobStatus.start stamps the
dispatch-start instant, the handler runs inside try, the bare except catches
every failure (so neither branch propagates), and the finally block calls
JobStatus.stop on both paths. Returns the final JobStatus and the error, if
any, that escapes the dispatch body. -/
def RunnableJob.run_internal (j : RunnableJob) (handlerResult : Except String Unit)
    (start_now : DateTime) : JobStatus × Option String :=
  let started := j.job_status.start start_now
  match handlerResult with
  | .ok _ => (started.stop, none)
  | .error _ => (started.stop, none)

/-- The dispatch decision of one sweep of Cronner.start (lines 403-405): a
job is dispatched exactly when item.should_run() evaluates to True. -/
def shouldDispatch (j : RunnableJob) (time_now : DateTime) : Bool :=
  j.should_run time_now == some true

/-! Helper lemmas shared by the claim theorems. -/

/-- A failed predicate-set check makes should_run return False whatever the
stop gates say. -/
theorem should_run_false_of_matches_false (s : SettableJobScheduler)
    (last : Option DateTime) (now : DateTime)
    (h : s.matches_now last now = some false) :
    s.should_run last now = some false := by
  unfold SettableJobScheduler.should_run
  split_ifs <;> simp_all

/-- Any non-empty predicate set missing the matching component of the current
time forces matches_now to False, whichever of the five slots it is. -/
theorem matches_now_false_of_miss (s : SettableJobScheduler)
    (last : Option DateTime) (now : DateTime)
    (h : (s.second.nonempty = true ∧ s.second.hasMem now.second = false)
       ∨ (s.minute.nonempty = true ∧ s.minute.hasMem now.minute = false)
       ∨ (s.hour.nonempty = true ∧ s.hour.hasMem now.hour = false)
       ∨ (s.day.nonempty = true ∧ s.day.hasMem now.day = false)
       ∨ (s.weekday.nonempty = true ∧ s.weekday.hasMem now.weekday = false)) :
    s.matches_now last now = some false := by
  unfold SettableJobScheduler.matches_now
  split_ifs with h1 h2 h3 h4 h5 <;>
    first
      | rfl
      | (exfalso
         rcases h with ⟨a, b⟩ | ⟨a, b⟩ | ⟨a, b⟩ | ⟨a, b⟩ | ⟨a, b⟩ <;> simp_all)

/-- When every one of the five membership checks passes (empty set or member)
and the interval is not positive, matches_now returns True. -/
theorem matches_now_true_of_pass (s : SettableJobScheduler)
    (last : Option DateTime) (now : DateTime)
    (h1 : (s.second.nonempty && !(s.second.hasMem now.second)) = false)
    (h2 : (s.minute.nonempty && !(s.minute.hasMem now.minute)) = false)
    (h3 : (s.hour.nonempty && !(s.hour.hasMem now.hour)) = false)
    (h4 : (s.day.nonempty && !(s.day.hasMem now.day)) = false)
    (h5 : (s.weekday.nonempty && !(s.weekday.hasMem now.weekday)) = false)
    (hi : ¬ s.interval > 0) :
    s.matches_now last now = some true := by
  unfold SettableJobScheduler.matches_now
  simp only [h1, h2, h3, h4, h5, if_false]
  cases last with
  | none => rfl
  | some t => simp [hi]

/-- C1: should_run treats an empty predicate set as a wildcard and non-empty
sets conjunctively: a non-empty set whose matching component of the current
time is not a member forces False (each of the five slots); a spec whose only
predicate is hour = \x7b9\x7d matches whenever the hour is 9, whatever the
other components; a spec with hour = \x7b9\x7d and minute = \x7b30\x7d
matches at 9:30 and at no other hour or minute. -/
theorem C1_wildcard_conjunctive_matching (s : SettableJobScheduler)
    (last : Option DateTime) (now : DateTime) :
    (s.second.nonempty = true → s.second.hasMem now.second = false →
      s.should_run last now = some false) ∧
    (s.minute.nonempty = true → s.minute.hasMem now.minute = false →
      s.should_run last now = some false) ∧
    (s.hour.nonempty = true → s.hour.hasMem now.hour = false →
      s.should_run last now = some false) ∧
    (s.day.nonempty = true → s.day.hasMem now.day = false →
      s.should_run last now = some false) ∧
    (s.weekday.nonempty = true → s.weekday.hasMem now.weekday = false →
      s.should_run last now = some false) ∧
    (s.is_stop = false → s.stop_until_time < now.abs →
      s.second.elems = [] → s.minute.elems = [] → s.day.elems = [] →
      s.weekday.elems = [] → s.hour.elems = [9] → s.interval = 0 →
      now.hour = 9 → s.should_run last now = some true) ∧
    (s.is_stop = false → s.stop_until_time < now.abs →
      s.second.elems = [] → s.day.elems = [] → s.weekday.elems = [] →
      s.hour.elems = [9] → s.minute.elems = [30] → s.interval = 0 →
      now.hour = 9 → now.minute = 30 → s.should_run last now = some true) ∧
    (s.hour.elems = [9] → s.minute.elems = [30] →
      (now.hour ≠ 9 ∨ now.minute ≠ 30) → s.should_run last now = some false) := by
  refine ⟨?_, ?_, ?_, ?_, ?_, ?_, ?_, ?_⟩
  · intro a b
    exact should_run_false_of_matches_false s last now
      (matches_now_false_of_miss s last now (Or.inl ⟨a, b⟩))
  · intro a b
    exact should_run_false_of_matches_false s last now
      (matches_now_false_of_miss s last now (Or.inr (Or.inl ⟨a, b⟩)))
  · intro a b
    exact should_run_false_of_matches_false s last now
      (matches_now_false_of_miss s last now (Or.inr (Or.inr (Or.inl ⟨a, b⟩))))
  · intro a b
    exact should_run_false_of_matches_false s last now
      (matches_now_false_of_miss s last now (Or.inr (Or.inr (Or.inr (Or.inl ⟨a, b⟩)))))
  · intro a b
    exact should_run_false_of_matches_false s last now
      (matches_now_false_of_miss s last now (Or.inr (Or.inr (Or.inr (Or.inr ⟨a, b⟩)))))
  · intro hstop huntil hsec hmin hday hwd hhr hint hnow
    have : s.matches_now last now = some true := by
      apply matches_now_true_of_pass <;>
        simp_all [PySet.nonempty, PySet.hasMem]
    unfold SettableJobScheduler.should_run
    simp [hstop, this, not_le.mpr huntil]
  · intro hstop huntil hsec hday hwd hhr hmin hint hnowh hnowm
    have : s.matches_now last now = some true := by
      apply matches_now_true_of_pass <;>
        simp_all [PySet.nonempty, PySet.hasMem]
    unfold SettableJobScheduler.should_run
    simp [hstop, this, not_le.mpr huntil]
  · intro hhr hmin hne
    apply should_run_false_of_matches_false
    apply matches_now_false_of_miss
    rcases hne with h9 | h30
    · exact Or.inr (Or.inr (Or.inl (by simp [PySet.nonempty, PySet.hasMem, hhr, h9])))
    · exact Or.inr (Or.inl (by simp [PySet.nonempty, PySet.hasMem, hmin, h30]))

/-- With a positive interval, a known unit and now strictly before
last_run + interval, the tail check returns False. -/
theorem matches_now_some_blocked (s : SettableJobScheduler) (T now : DateTime) (d : Int)
    (hpos : 0 < s.interval)
    (hdelta : intervalDelta s.interval s.interval_unit = some d)
    (hlt : now.abs < T.abs + d) :
    s.matches_now (some T) now = some false := by
  unfold SettableJobScheduler.matches_now
  split_ifs with h1 h2 h3 h4 h5 <;>
    first
      | rfl
      | (simp only [hdelta]; exact if_pos hlt)

/-- With a positive interval, a known unit and now at or past
last_run + interval, the tail check agrees with the never-run tail check. -/
theorem matches_now_some_passes (s : SettableJobScheduler) (T now : DateTime) (d : Int)
    (hpos : 0 < s.interval)
    (hdelta : intervalDelta s.interval s.interval_unit = some d)
    (hge : T.abs + d ≤ now.abs) :
    s.matches_now (some T) now = s.matches_now none now := by
  unfold SettableJobScheduler.matches_now
  split_ifs with h1 h2 h3 h4 h5 <;>
    first
      | rfl
      | (simp only [hdelta]; exact if_neg (not_lt.mpr hge))

/-- The stop gates of should_run do not read last_run_time, so equal tail
checks give equal should_run results. -/
theorem should_run_congr_tail (s : SettableJobScheduler)
    (l1 l2 : Option DateTime) (now : DateTime)
    (h : s.matches_now l1 now = s.matches_now l2 now) :
    s.should_run l1 now = s.should_run l2 now := by
  unfold SettableJobScheduler.should_run
  split_ifs <;> first | rfl | exact h

/-- C2: with a configured (positive, known-unit) interval and a recorded
last_run_time T, should_run returns False for every now strictly before
T + interval, and from T + interval on the interval gate passes, leaving the
result to the other checks; with no last_run_time the interval configuration
is ignored entirely. -/
theorem C2_interval_boundary (s : SettableJobScheduler) (T now : DateTime) (d : Int) :
    (0 < s.interval → intervalDelta s.interval s.interval_unit = some d →
      ((now.abs < T.abs + d → s.should_run (some T) now = some false) ∧
       (T.abs + d ≤ now.abs → s.should_run (some T) now = s.should_run none now))) ∧
    (∀ (i : Int) (u : String),
      ({ s with interval := i, interval_unit := u }
        : SettableJobScheduler).should_run none now = s.should_run none now) := by
  constructor
  · intro hpos hdelta
    constructor
    · intro hlt
      exact should_run_false_of_matches_false s (some T) now
        (matches_now_some_blocked s T now d hpos hdelta hlt)
    · intro hge
      exact should_run_congr_tail s (some T) none now
        (matches_now_some_passes s T now d hpos hdelta hge)
  · intro i u
    rfl

/-- Witness for C2: interval of 5 seconds, last run at second 100: not due at
second 104, due at second 105. -/
theorem C2_interval_boundary_witness :
    ({ SettableJobScheduler.init with interval := 5, interval_unit := "second" }
      : SettableJobScheduler).should_run (some ⟨100, 0, 0, 0, 1, 0⟩)
        ⟨104, 0, 0, 0, 1, 0⟩ = some false ∧
    ({ SettableJobScheduler.init with interval := 5, interval_unit := "second" }
      : SettableJobScheduler).should_run (some ⟨100, 0, 0, 0, 1, 0⟩)
        ⟨105, 0, 0, 0, 1, 0⟩ = some true := by
  constructor
  · exact ((C2_interval_boundary
      { SettableJobScheduler.init with interval := 5, interval_unit := "second" }
      ⟨100, 0, 0, 0, 1, 0⟩ ⟨104, 0, 0, 0, 1, 0⟩ 5).1 (by norm_num) rfl).1 (by norm_num)
  · have h := ((C2_interval_boundary
      { SettableJobScheduler.init with interval := 5, interval_unit := "second" }
      ⟨100, 0, 0, 0, 1, 0⟩ ⟨105, 0, 0, 0, 1, 0⟩ 5).1 (by norm_num) rfl).2 (by norm_num)
    rw [h]
    rfl

/-- C3: a running job is never due and never dispatched, whatever its spec
and custom predicate would report. -/
theorem C3_no_overlap (j : RunnableJob) (now : DateTime)
    (h : j.job_status.is_running = true) :
    j.should_run now = some false ∧ shouldDispatch j now = false := by
  have hs : j.should_run now = some false := by
    unfold RunnableJob.should_run
    simp [h]
  exact ⟨hs, by simp [shouldDispatch, hs]⟩

/-- Witness for C3: a job whose spec is due now and whose custom predicate
says yes is still not dispatched while it is running. -/
theorem C3_no_overlap_witness :
    (RunnableJob.mk
        { SettableJobScheduler.init with hour := ⟨[9], true⟩, is_sealed := true }
        ⟨true, none⟩ (some fun _ => true) false).should_run
        ⟨0, 0, 30, 9, 23, 4⟩ = some false ∧
    shouldDispatch
      (RunnableJob.mk
        { SettableJobScheduler.init with hour := ⟨[9], true⟩, is_sealed := true }
        ⟨true, none⟩ (some fun _ => true) false)
      ⟨0, 0, 30, 9, 23, 4⟩ = false :=
  C3_no_overlap _ _ rfl

/-- C4: the dispatch body never propagates a handler failure, always ends
with the running flag cleared, and stamps last_run_time with the
dispatch-start instant on success and on failure alike. -/
theorem C4_dispatch_isolation (j : RunnableJob) (handlerResult : Except String Unit)
    (now : DateTime) :
    (j.run_internal handlerResult now).2 = none ∧
    (j.run_internal handlerResult now).1.is_running = false ∧
    (j.run_internal handlerResult now).1.last_run_time = some now := by
  cases handlerResult <;>
    simp [RunnableJob.run_internal, JobStatus.start, JobStatus.stop]

/-- C5: stop() makes should_run return False whatever the predicates say;
stop_until(t) makes it return False for now at or before t (inclusive
boundary) and for later now hands the decision back to the normal predicate
and interval checks of the spec. -/
theorem C5_stop_controls (s : SettableJobScheduler) (t : Int)
    (last : Option DateTime) (now : DateTime) :
    ((s.stop).should_run last now = some false) ∧
    (now.abs ≤ t → (s.stop_until t).should_run last now = some false) ∧
    (s.is_stop = false → t < now.abs →
      (s.stop_until t).should_run last now = s.matches_now last now) := by
  refine ⟨?_, ?_, ?_⟩
  · simp [SettableJobScheduler.stop, SettableJobScheduler.should_run]
  · intro h
    by_cases hs : s.is_stop <;>
      simp [SettableJobScheduler.stop_until, SettableJobScheduler.should_run, hs, h]
  · intro hs hlt
    simp [SettableJobScheduler.stop_until, SettableJobScheduler.should_run, hs,
      not_le.mpr hlt]
    rfl

/-- Witness for C5: an hour-9 spec with stop_until = 100 is suppressed at
time 50 and fires again at time 200 inside hour 9. -/
theorem C5_stop_controls_witness :
    (({ SettableJobScheduler.init with hour := ⟨[9], false⟩ }
      : SettableJobScheduler).stop_until 100).should_run none
      ⟨50, 0, 0, 9, 1, 0⟩ = some false ∧
    (({ SettableJobScheduler.init with hour := ⟨[9], false⟩ }
      : SettableJobScheduler).stop_until 100).should_run none
      ⟨200, 0, 0, 9, 1, 0⟩ = some true := by
  constructor
  · exact (C5_stop_controls _ 100 none ⟨50, 0, 0, 9, 1, 0⟩).2.1 (by norm_num)
  · have h := (C5_stop_controls { SettableJobScheduler.init with hour := ⟨[9], false⟩ }
      100 none ⟨200, 0, 0, 9, 1, 0⟩).2.2 rfl (by norm_num)
    rw [h]
    rfl

/-- Witness for C1: the hour-only spec fires at 9:59:59 on any day, and the
hour-and-minute spec does not fire at 9:41. -/
theorem C1_wildcard_conjunctive_matching_witness :
    ({ SettableJobScheduler.init with hour := ⟨[9], false⟩ }
      : SettableJobScheduler).should_run none ⟨0, 59, 59, 9, 23, 4⟩ = some true ∧
    ({ SettableJobScheduler.init with hour := ⟨[9], false⟩, minute := ⟨[30], false⟩ }
      : SettableJobScheduler).should_run none ⟨0, 0, 41, 9, 23, 4⟩ = some false := by
  constructor
  · exact (C1_wildcard_conjunctive_matching _ none _).2.2.2.2.2.1
      rfl (by norm_num [SettableJobScheduler.init, pyDatetimeMin])
      rfl rfl rfl rfl rfl rfl rfl
  · exact (C1_wildcard_conjunctive_matching _ none _).2.2.2.2.2.2.2
      rfl rfl (Or.inr (by decide))

/-- C6: once a spec is sealed, each of the five predicate-set builders fails
(the frozen set refuses the mutation), and sealing a second time does not
fail: it is idempotent. -/
theorem C6_sealed_adds_fail (s : SettableJobScheduler) (v : Nat) :
    ((s.seal).add_second v
      = .error (.attrError "frozenset object has no attribute add")) ∧
    ((s.seal).add_minute v
      = .error (.attrError "frozenset object has no attribute add")) ∧
    ((s.seal).add_hour v
      = .error (.attrError "frozenset object has no attribute add")) ∧
    ((s.seal).add_day v
      = .error (.attrError "frozenset object has no attribute add")) ∧
    ((s.seal).add_weekday v
      = .error (.attrError "frozenset object has no attribute add")) ∧
    (s.seal).seal = s.seal :=
  ⟨rfl, rfl, rfl, rfl, rfl, rfl⟩

/-- Counterexample for C7 as stated: on a sealed spec, set_interval does not
succeed: the sealed guard raises. -/
theorem C7_counterexample :
    (SettableJobScheduler.init.seal).set_interval 5 "minute"
      = .error (.runtimeError "Job Schedule is sealed") := rfl

/-- C7 amended: after seal only stop and stop_until remain usable;
set_interval is rejected by the sealed guard. -/
theorem C7_seal_runtime_controls (s : SettableJobScheduler) (i t : Int) (u : String) :
    ((s.seal).set_interval i u
      = .error (.runtimeError "Job Schedule is sealed")) ∧
    ((s.seal).stop).is_stop = true ∧
    ((s.seal).stop_until t).stop_until_time = t :=
  ⟨rfl, rfl, rfl⟩

/-- Counterexample for C8 as stated: re-setting the interval with the same
unit but a different magnitude is a conflicting re-specification, yet it
succeeds and silently overwrites the magnitude. -/
theorem C8_counterexample :
    (SettableJobScheduler.init.set_interval 5 "minute").bind
        (fun s2 => s2.set_interval 7 "minute")
      = .ok { SettableJobScheduler.init with interval := 7, interval_unit := "minute" } :=
  rfl

/-- C8 amended: on an unsealed spec the first set_interval always succeeds, a
later call with a different unit fails with the set-once error, and a later
call with the same unit succeeds for every magnitude (identical or not),
overwriting the stored magnitude. -/
theorem C8_set_interval_guard (s : SettableJobScheduler) (i j : Int) (u v : String) :
    (s.is_sealed = false → s.interval_unit = "" →
      s.set_interval i u = .ok { s with interval := i, interval_unit := u }) ∧
    (s.is_sealed = false → s.interval_unit ≠ "" → v ≠ s.interval_unit →
      s.set_interval j v = .error (.valueError "interval can only be set once")) ∧
    (s.is_sealed = false →
      s.set_interval j s.interval_unit
        = .ok { s with interval := j, interval_unit := s.interval_unit }) := by
  refine ⟨?_, ?_, ?_⟩
  · intro hseal hunit
    simp [SettableJobScheduler.set_interval, SettableJobScheduler.check_sealed,
      hseal, hunit]
  · intro hseal hunit hv
    simp [SettableJobScheduler.set_interval, SettableJobScheduler.check_sealed,
      hseal, hunit, Ne.symm hv]
  · intro hseal
    simp [SettableJobScheduler.set_interval, SettableJobScheduler.check_sealed, hseal]

/-- Witness for C8 amended: with minute already recorded, switching to hour
fails and repeating the identical (5, minute) succeeds. -/
theorem C8_set_interval_guard_witness :
    ({ SettableJobScheduler.init with interval := 5, interval_unit := "minute" }
      : SettableJobScheduler).set_interval 7 "hour"
      = .error (.valueError "interval can only be set once") ∧
    ({ SettableJobScheduler.init with interval := 5, interval_unit := "minute" }
      : SettableJobScheduler).set_interval 5 "minute"
      = .ok { SettableJobScheduler.init with interval := 5, interval_unit := "minute" } := by
  constructor
  · exact (C8_set_interval_guard
      { SettableJobScheduler.init with interval := 5, interval_unit := "minute" }
      0 7 "" "hour").2.1 rfl (by decide) (by decide)
  · exact (C8_set_interval_guard
      { SettableJobScheduler.init with interval := 5, interval_unit := "minute" }
      0 5 "" "minute").2.2 rfl

/-- C9: the custom predicate is consulted only for a job that is not running
and whose intrinsic check passed, and there its verdict is the dispatch
decision; with no custom predicate the intrinsic result alone decides; in
every other situation the result does not depend on the custom predicate. -/
theorem C9_custom_predicate (sp : SettableJobScheduler) (st : JobStatus)
    (f : SettableJobScheduler → Bool) (hp : Bool) (now : DateTime) :
    (st.is_running = false → sp.should_run st.last_run_time now = some true →
      (RunnableJob.mk sp st (some f) hp).should_run now = some (f sp)) ∧
    (st.is_running = false → sp.should_run st.last_run_time now = some true →
      shouldDispatch (RunnableJob.mk sp st (some f) hp) now = f sp) ∧
    (st.is_running = false →
      (RunnableJob.mk sp st none hp).should_run now
        = sp.should_run st.last_run_time now) ∧
    (∀ g : SettableJobScheduler → Bool,
      ¬(st.is_running = false ∧ sp.should_run st.last_run_time now = some true) →
      (RunnableJob.mk sp st (some f) hp).should_run now
        = (RunnableJob.mk sp st (some g) hp).should_run now) := by
  refine ⟨?_, ?_, ?_, ?_⟩
  · intro hr hdue
    simp [RunnableJob.should_run, hr, hdue]
  · intro hr hdue
    cases hfb : f sp <;>
      simp [shouldDispatch, RunnableJob.should_run, hr, hdue, hfb]
  · intro hr
    rcases hv : sp.should_run st.last_run_time now with _ | b
    · simp [RunnableJob.should_run, hr, hv]
    · cases b <;> simp [RunnableJob.should_run, hr, hv]
  · intro g hno
    by_cases hr : st.is_running
    · simp [RunnableJob.should_run, hr]
    · rcases hv : sp.should_run st.last_run_time now with _ | b
      · simp [RunnableJob.should_run, hr, hv]
      · cases b with
        | false => simp [RunnableJob.should_run, hr, hv]
        | true => exact absurd ⟨by simpa using hr, hv⟩ hno

/-- Witness for C9: a job due at 9:30 with a vetoing custom predicate is not
dispatched; the same job with no custom predicate is due. -/
theorem C9_custom_predicate_witness :
    (RunnableJob.mk
        { SettableJobScheduler.init with hour := ⟨[9], true⟩, is_sealed := true }
        JobStatus.init (some fun _ => false) false).should_run
        ⟨0, 0, 30, 9, 23, 4⟩ = some false ∧
    shouldDispatch
      (RunnableJob.mk
        { SettableJobScheduler.init with hour := ⟨[9], true⟩, is_sealed := true }
        JobStatus.init (some fun _ => false) false)
      ⟨0, 0, 30, 9, 23, 4⟩ = false ∧
    (RunnableJob.mk
        { SettableJobScheduler.init with hour := ⟨[9], true⟩, is_sealed := true }
        JobStatus.init none false).should_run
        ⟨0, 0, 30, 9, 23, 4⟩ = some true := by
  refine ⟨?_, ?_, ?_⟩
  · exact (C9_custom_predicate
      { SettableJobScheduler.init with hour := ⟨[9], true⟩, is_sealed := true }
      JobStatus.init (fun _ => false) false ⟨0, 0, 30, 9, 23, 4⟩).1 rfl rfl
  · exact (C9_custom_predicate
      { SettableJobScheduler.init with hour := ⟨[9], true⟩, is_sealed := true }
      JobStatus.init (fun _ => false) false ⟨0, 0, 30, 9, 23, 4⟩).2.1 rfl rfl
  · have h := (C9_custom_predicate
      { SettableJobScheduler.init with hour := ⟨[9], true⟩, is_sealed := true }
      JobStatus.init (fun _ => false) false ⟨0, 0, 30, 9, 23, 4⟩).2.2.1 rfl
    rw [h]
    rfl

/-- C10: a spec whose only configuration is a strictly negative interval is
accepted (set_interval stores it, is_scheduled is true, RunnableJob
construction succeeds), yet should_run never applies the interval gate, so
the spec reports due on every evaluation, even with last_run_time set to the
current instant. -/
theorem C10_negative_interval (i : Int) (u dn : String) (hp : Bool)
    (last : Option DateTime) (now : DateTime)
    (hneg : i < 0) (hnow : pyDatetimeMin < now.abs) :
    (SettableJobScheduler.init.set_interval i u
      = .ok { SettableJobScheduler.init with interval := i, interval_unit := u }) ∧
    ({ SettableJobScheduler.init with interval := i, interval_unit := u }
      : SettableJobScheduler).is_scheduled = true ∧
    (RunnableJob.create { SettableJobScheduler.init with interval := i, interval_unit := u }
      dn none hp).isOk = true ∧
    ({ SettableJobScheduler.init with interval := i, interval_unit := u }
      : SettableJobScheduler).should_run last now = some true ∧
    (({ SettableJobScheduler.init with interval := i, interval_unit := u }
      : SettableJobScheduler).seal).should_run last now = some true := by
  have hscheduled : ({ SettableJobScheduler.init with interval := i, interval_unit := u }
      : SettableJobScheduler).is_scheduled = true := by
    simp [SettableJobScheduler.is_scheduled, SettableJobScheduler.init,
      PySet.nonempty, PySet.empty]
    omega
  refine ⟨?_, hscheduled, ?_, ?_, ?_⟩
  · simp [SettableJobScheduler.set_interval, SettableJobScheduler.check_sealed,
      SettableJobScheduler.init]
  · simp [RunnableJob.create, hscheduled, Except.isOk, Except.toBool]
  · unfold SettableJobScheduler.should_run
    rw [if_neg (by simp [SettableJobScheduler.init]),
      if_neg (by simp [SettableJobScheduler.init]; omega)]
    cases last with
    | none => rfl
    | some t =>
      unfold SettableJobScheduler.matches_now
      simp [SettableJobScheduler.init, PySet.nonempty, PySet.empty]
      omega
  · unfold SettableJobScheduler.should_run
    rw [if_neg (by simp [SettableJobScheduler.seal, SettableJobScheduler.init]),
      if_neg (by simp [SettableJobScheduler.seal, SettableJobScheduler.init]; omega)]
    cases last with
    | none => rfl
    | some t =>
      unfold SettableJobScheduler.matches_now
      simp [SettableJobScheduler.seal, SettableJobScheduler.init,
        PySet.nonempty, PySet.empty, PySet.freeze]
      omega

/-- Witness for C10: interval -3 seconds, evaluated at the very instant of
the previous run, still reports due. -/
theorem C10_negative_interval_witness :
    ({ SettableJobScheduler.init with interval := -3, interval_unit := "second" }
      : SettableJobScheduler).is_scheduled = true ∧
    ({ SettableJobScheduler.init with interval := -3, interval_unit := "second" }
      : SettableJobScheduler).should_run (some ⟨5, 0, 0, 0, 1, 0⟩)
      ⟨5, 0, 0, 0, 1, 0⟩ = some true := by
  have h := C10_negative_interval (-3) "second" "job" false
    (some ⟨5, 0, 0, 0, 1, 0⟩) ⟨5, 0, 0, 0, 1, 0⟩ (by norm_num)
    (by norm_num [pyDatetimeMin])
  exact ⟨h.2.1, h.2.2.2.1⟩
